import Mathlib

/-!
Shallow embedding of `playkit.py`, a minimal 2D game runtime built on pygame,
together with theorems checking its specification.

Modelling conventions:
- pygame `Rect` stores integer coordinates; assigning a Python float to a
  `Rect` field goes through a C `(int)` cast, i.e. truncation toward zero.
  We model real-valued quantities (velocities, `dt`, age, lifetime) as `ℚ`
  and coordinate writes through `addTrunc`.
- Python objects are modelled by a store (`List GameSprite`) indexed by ids;
  registries and handler tables hold ids, mirroring object references.
- User callbacks (registered via `when_key`, `when_click`, `when_update`,
  `on_game_update`, `when_overlap`, `on_game_start`) are modelled by a small
  command language `Act` covering what the callbacks in this code base do:
  mutate a counter, spawn/destroy sprites, declare game over, queue draw/text
  commands, and register further handlers.
- The image/font/window backend is abstracted: image handles are opaque `Nat`
  ids and a load-and-scale call is modelled by its outcome (`LoadResult`).
-/

/-! ## Geometry: pygame `Rect` and `Vector2` fragments used by playkit -/

/-- Axis-aligned rectangle with integer coordinates, as pygame's `Rect`:
`x`/`y` is the top-left corner, `w`/`h` the size. -/
structure Rect where
  x : ℤ
  y : ℤ
  w : ℤ
  h : ℤ
deriving DecidableEq

/-- pygame `Rect.colliderect`: strict overlap test (touching edges do not
collide). This is pygame's formula specialised to non-negative sizes. -/
def colliderect (a b : Rect) : Bool :=
  decide (a.x < b.x + b.w) && decide (a.y < b.y + b.h) &&
  decide (b.x < a.x + a.w) && decide (b.y < a.y + a.h)

/-- pygame `Rect.collidepoint`: a point on the right or bottom edge is not
inside. -/
def collidepoint (r : Rect) (px py : ℤ) : Bool :=
  decide (r.x ≤ px) && decide (px < r.x + r.w) &&
  decide (r.y ≤ py) && decide (py < r.y + r.h)

/-- Truncation toward zero of a rational, as C's `(int)` cast applied by
pygame when a float is assigned to a `Rect` field. -/
def truncQ (q : ℚ) : ℤ := if 0 ≤ q then ⌊q⌋ else ⌈q⌉

/-- The coordinate update `rect.x += delta` of playkit's movement code:
integer coordinate plus real delta, truncated back to an integer. -/
def addTrunc (x : ℤ) (d : ℚ) : ℤ := truncQ ((x : ℚ) + d)

theorem truncQ_intCast (k : ℤ) : truncQ (k : ℚ) = k := by
  unfold truncQ
  split <;> simp

theorem addTrunc_intCast (x k : ℤ) : addTrunc x (k : ℚ) = x + k := by
  unfold addTrunc
  rw [← Int.cast_add, truncQ_intCast]

theorem addTrunc_zero (x : ℤ) : addTrunc x 0 = x := by
  have h := addTrunc_intCast x 0
  simpa using h

/-! ## The sprite entity (`GameSprite` in playkit.py)

Fields mirror `GameSprite.__init__` plus the attributes added dynamically by
`enable_gravity` (`gravity`, `on_ground`).  The `_follow` target is modelled
as a flag: its per-frame displacement involves the backend's real-valued
`Vector2.normalize` (a square root), so the physics step receives that
displacement as an explicit parameter, consumed only when `follow` is set. -/

structure GameSprite where
  image : Option ℕ := none
  rect : Rect
  color : ℕ × ℕ × ℕ := (0, 0, 255)
  speedx : ℚ := 0
  speedy : ℚ := 0
  lifetime : Option ℚ := none
  age : ℚ := 0
  follow : Bool := false
  bounce : Bool := false
  gravity : Option ℚ := none
  on_ground : Bool := false
  alive : Bool := true
deriving DecidableEq

/-! ## Per-sprite physics step (`start`, lines 297-338)

Sub-steps in source order: follow, gravity, movement, edge bounce, platform
landing, lifetime. -/

/-- Follow sub-step: `spr.rect.x += vel.x; spr.rect.y += vel.y` where
`vel = dirv.normalize() * spd * dt` is supplied as `(fdx, fdy)` (zero when the
direction vector is zero, which makes the guarded skip equal to adding 0). -/
def stepFollow (fdx fdy : ℚ) (s : GameSprite) : GameSprite :=
  if s.follow then
    { s with rect := { s.rect with x := addTrunc s.rect.x fdx,
                                   y := addTrunc s.rect.y fdy } }
  else s

/-- Gravity sub-step: `spr.speed.y += spr.gravity * dt` when the sprite has a
`gravity` attribute. -/
def stepGravity (dt : ℚ) (s : GameSprite) : GameSprite :=
  match s.gravity with
  | some g => { s with speedy := s.speedy + g * dt }
  | none => s

/-- Movement sub-step: `spr.rect.x += spr.speed.x * dt` and likewise for `y`,
each write truncating to an integer. -/
def stepMove (dt : ℚ) (s : GameSprite) : GameSprite :=
  { s with rect := { s.rect with x := addTrunc s.rect.x (s.speedx * dt),
                                 y := addTrunc s.rect.y (s.speedy * dt) } }

/-- Horizontal half of the edge-bounce sub-step: if the rectangle's left or
right edge crosses the window's horizontal bounds, negate the horizontal
velocity and clamp `x` to `max 0 (min x (width - w))`. -/
def bounceX (width : ℤ) (s : GameSprite) : GameSprite :=
  if s.rect.x < 0 ∨ s.rect.x + s.rect.w > width then
    { s with speedx := -s.speedx,
             rect := { s.rect with x := max 0 (min s.rect.x (width - s.rect.w)) } }
  else s

/-- Vertical half of the edge-bounce sub-step. -/
def bounceY (height : ℤ) (s : GameSprite) : GameSprite :=
  if s.rect.y < 0 ∨ s.rect.y + s.rect.h > height then
    { s with speedy := -s.speedy,
             rect := { s.rect with y := max 0 (min s.rect.y (height - s.rect.h)) } }
  else s

/-- Edge-bounce sub-step: horizontal test, then vertical test on the updated
sprite, only when `spr.bounce` is set. -/
def stepBounce (width height : ℤ) (s : GameSprite) : GameSprite :=
  if s.bounce then bounceY height (bounceX width s) else s

/-- First platform rectangle colliding with `r`, in registration order
(the `for plat in _platforms: ... break` loop). -/
def findPlat (r : Rect) : List Rect → Option Rect
  | [] => none
  | p :: ps => if colliderect r p then some p else findPlat r ps

/-- Platform-landing sub-step: only for gravity-enabled sprites with
non-negative vertical velocity; on the first overlapping platform, snap the
sprite's bottom to the platform's top (`rect.bottom = plat.rect.top`, i.e.
`y := p.y - h`), zero the vertical velocity and set `on_ground`.  The flag is
cleared before the scan, so it ends up `false` exactly when no overlap was
found — but only on frames where this sub-step runs at all. -/
def stepPlatforms (plats : List Rect) (s : GameSprite) : GameSprite :=
  if s.gravity.isSome ∧ 0 ≤ s.speedy then
    match findPlat s.rect plats with
    | some p => { s with rect := { s.rect with y := p.y - s.rect.h },
                         speedy := 0, on_ground := true }
    | none => { s with on_ground := false }
  else s

/-- Lifetime sub-step: `spr._age += dt; if spr._age >= spr.lifetime:
spr.destroy()`. -/
def stepLifetime (dt : ℚ) (s : GameSprite) : GameSprite :=
  match s.lifetime with
  | some l =>
      let a := s.age + dt
      { s with age := a, alive := if l ≤ a then false else s.alive }
  | none => s

/-- One full per-sprite physics step, sub-steps in source order. -/
def physStep (width height : ℤ) (plats : List Rect) (dt fdx fdy : ℚ)
    (s : GameSprite) : GameSprite :=
  stepLifetime dt
    (stepPlatforms plats
      (stepBounce width height
        (stepMove dt
          (stepGravity dt
            (stepFollow fdx fdy s)))))

/-! ## Rendering commands (the draw pass, `start` lines 349-382)

The draw pass is modelled as the list of backend calls it would issue; font
metrics and blit positions computed by the backend are out of scope. -/

/-- One backend drawing call issued during a frame. -/
inductive RenderCmd where
  | background
  | blit (img : ℕ) (r : Rect)
  | fillRect (c : ℕ × ℕ × ℕ) (r : Rect)
  | circle (x y radius : ℤ)
  | text (t : String) (x y : ℤ) (size : ℕ)
  | overlayText (t : String)
deriving DecidableEq

/-- How one sprite is rendered (`start` lines 363-367): blit its image if it
has one, otherwise fill its rectangle with its color.  Note there is no
`alive` test here. -/
def drawSprite (s : GameSprite) : RenderCmd :=
  match s.image with
  | some i => RenderCmd.blit i s.rect
  | none => RenderCmd.fillRect s.color s.rect

/-! ## The callback command language and the runtime state -/

/-- Commands available to user callbacks.  They cover what the callbacks of
this code base do: increment a shared counter (observability for tests),
create a sprite (`sprite(...)`), destroy one (`spr.destroy()`), declare game
over (`game_over`), queue one-shot draw/text commands (`draw_circle`,
`write`), and register further handlers (the `when_*` / `on_*` operations,
which `control_arrows` also uses via `on_game_update`). -/
inductive Act where
  | incCounter
  | spawn (s : GameSprite)
  | destroyId (i : ℕ)
  | setGameOver (msg : String)
  | drawCircle (x y radius : ℤ)
  | writeText (t : String) (x y : ℤ) (size : ℕ)
  | regKey (code : ℕ) (prog : List Act)
  | regClick (i : ℕ) (prog : List Act)
  | regGameUpdate (prog : List Act)
  | regUpdate (prog : List Act)
  | regOverlap (i j : ℕ) (prog : List Act)
  | regStart (prog : List Act)

/-- The module-level mutable state of playkit.  Sprites live in `store`
(Python objects, indexed by id, never removed); `sprites` is the `_sprites`
registry, `platforms` is `_platforms`, both lists of ids.  Handler tables
hold callback programs. -/
structure World where
  store : List GameSprite := []
  sprites : List ℕ := []
  platforms : List ℕ := []
  keyHandlers : List (ℕ × List (List Act)) := []
  clickHandlers : List (ℕ × List (List Act)) := []
  updateHandlers : List (List Act) := []
  gameUpdateHandlers : List (List Act) := []
  overlapHandlers : List (ℕ × ℕ × List Act) := []
  startHandlers : List (List Act) := []
  drawCmds : List (ℤ × ℤ × ℤ) := []
  textCmds : List (String × ℤ × ℤ × ℕ) := []
  gameOverFlag : Bool := false
  gameOverMsg : String := ""
  counter : ℕ := 0
  lastFrame : List RenderCmd := []

/-- `dict.setdefault(key, []).append(prog)`: append to the entry of `k`, or
add a fresh entry at the end (Python dicts preserve insertion order). -/
def addEntry (k : ℕ) (p : List Act) :
    List (ℕ × List (List Act)) → List (ℕ × List (List Act))
  | [] => [(k, [p])]
  | (k', ps) :: hs =>
      if k' = k then (k', ps ++ [p]) :: hs else (k', ps) :: addEntry k p hs

/-- Effect of one callback command on the state. -/
def runAct (a : Act) (w : World) : World :=
  match a with
  | .incCounter => { w with counter := w.counter + 1 }
  | .spawn s => { w with store := w.store ++ [s],
                         sprites := w.sprites ++ [w.store.length] }
  | .destroyId i =>
      match w.store[i]? with
      | some s => { w with store := w.store.set i { s with alive := false } }
      | none => w
  | .setGameOver m => { w with gameOverFlag := true, gameOverMsg := m }
  | .drawCircle x y radius => { w with drawCmds := w.drawCmds ++ [(x, y, radius)] }
  | .writeText t x y size => { w with textCmds := w.textCmds ++ [(t, x, y, size)] }
  | .regKey c p => { w with keyHandlers := addEntry c p w.keyHandlers }
  | .regClick i p => { w with clickHandlers := addEntry i p w.clickHandlers }
  | .regGameUpdate p => { w with gameUpdateHandlers := w.gameUpdateHandlers ++ [p] }
  | .regUpdate p => { w with updateHandlers := w.updateHandlers ++ [p] }
  | .regOverlap i j p => { w with overlapHandlers := w.overlapHandlers ++ [(i, j, p)] }
  | .regStart p => { w with startHandlers := w.startHandlers ++ [p] }

/-- Run one callback program left to right. -/
def runProg (p : List Act) (w : World) : World :=
  p.foldl (fun acc a => runAct a acc) w

/-- Run a list of callback programs in order. -/
def runProgs (ps : List (List Act)) (w : World) : World :=
  ps.foldl (fun acc p => runProg p acc) w

/-! ## The physics pass over the registry (`start` lines 290-338)

The loop iterates over a snapshot (`list(_sprites)`); a sprite found dead is
removed from the registry (`_sprites.remove(spr)`) and skipped, others are
stepped in place.  Platform rectangles are read live from the store at each
sprite's step.  The registry pass is modelled for sprites whose follow target
is unset (the follow displacement needs the backend's real-valued normalize),
so the per-sprite step receives 0 for it. -/

/-- Rectangles of the registered platforms, read from the store. -/
def platRectsOf (store : List GameSprite) (ids : List ℕ) : List Rect :=
  ids.filterMap (fun i => (store[i]?).map (·.rect))

/-- The physics pass: `pending` is the iteration snapshot, `store` the sprite
objects, `reg` the live `_sprites` registry. -/
def physLoop (width height : ℤ) (dt : ℚ) (platIds : List ℕ) :
    List ℕ → List GameSprite → List ℕ → List GameSprite × List ℕ
  | [], store, reg => (store, reg)
  | i :: is, store, reg =>
      match store[i]? with
      | none => physLoop width height dt platIds is store reg
      | some s =>
          if s.alive then
            physLoop width height dt platIds is
              (store.set i (physStep width height (platRectsOf store platIds) dt 0 0 s))
              reg
          else
            physLoop width height dt platIds is store (reg.erase i)

/-- Physics over the whole world. -/
def physicsW (width height : ℤ) (dt : ℚ) (w : World) : World :=
  let r := physLoop width height dt w.platforms w.sprites w.store w.sprites
  { w with store := r.1, sprites := r.2 }

/-! ## Overlap notifier (`start` lines 340-343) -/

/-- Condition for a registered overlap triple to fire:
`a.alive and b.alive and a.rect.colliderect(b.rect)`. -/
def overlapCondW (i j : ℕ) (w : World) : Bool :=
  match w.store[i]?, w.store[j]? with
  | some a, some b => a.alive && b.alive && colliderect a.rect b.rect
  | _, _ => false

/-- Run the overlap handlers in registration order; the condition is
re-evaluated against the current state at each triple, and the fired triples
are logged in order. -/
def overlapLoop : List (ℕ × ℕ × List Act) → World → World × List (ℕ × ℕ × List Act)
  | [], w => (w, [])
  | (i, j, p) :: ts, w =>
      if overlapCondW i j w then
        let r := overlapLoop ts (runProg p w)
        (r.1, (i, j, p) :: r.2)
      else
        overlapLoop ts w

/-- Overlap pass over the whole world. -/
def overlapW (w : World) : World := (overlapLoop w.overlapHandlers w).1

/-! ## Input dispatch (`start` lines 233-253, 278-287) -/

/-- pygame key code of the restart key (`pygame.K_SPACE`). -/
def kSpace : ℕ := 32

/-- One platform input event (`pollEvents` contract). -/
inductive Event where
  | quit
  | keydown (code : ℕ)
  | mousedown (px py : ℤ)

/-- Click dispatch (`start` lines 248-253): every registered click target
whose rectangle contains the point has its callbacks run.  There is no
`alive` test. -/
def clickLoop (px py : ℤ) : List (ℕ × List (List Act)) → World → World
  | [], w => w
  | (i, progs) :: hs, w =>
      let w1 := match w.store[i]? with
        | some s => if collidepoint s.rect px py then runProgs progs w else w
        | none => w
      clickLoop px py hs w1

/-- Click dispatch over the registered click handlers. -/
def clickDispatchW (px py : ℤ) (w : World) : World :=
  clickLoop px py w.clickHandlers w

/-- Held-key dispatch (`start` lines 278-283): every registered key with a
currently-down state has its callbacks run. -/
def heldLoop (held : List ℕ) : List (ℕ × List (List Act)) → World → World
  | [], w => w
  | (c, progs) :: hs, w =>
      heldLoop held hs (if held.contains c then runProgs progs w else w)

/-- Held-key dispatch over the registered key handlers. -/
def runHeldKeys (held : List ℕ) (w : World) : World :=
  heldLoop held w.keyHandlers w

/-- Pre-physics per-frame hooks (`on_game_update`, called with `dt`; the
modelled callbacks do not inspect it). -/
def runGameUpdates (_dt : ℚ) (w : World) : World :=
  runProgs w.gameUpdateHandlers w

/-- Post-physics per-frame hooks (`when_update`). -/
def runUpdates (w : World) : World :=
  runProgs w.updateHandlers w

/-! ## Game-over reset and the restart transition (`start` lines 238-245) -/

/-- The reset performed on a restart key-press: clear the sprite registry and
the one-shot draw/text buffers, drop the game-over flag.  Handler tables,
the platform registry and the object store are untouched. -/
def resetWorld (w : World) : World :=
  { w with sprites := [], drawCmds := [], textCmds := [], gameOverFlag := false }

/-- Invoke every on-start callback in registration order. -/
def runStarts (w : World) : World :=
  runProgs w.startHandlers w

/-- The GameOver→Running restart transition: reset, then re-run the on-start
callbacks. -/
def restartTransition (w : World) : World :=
  runStarts (resetWorld w)

/-! ## Event drain and frame rendering (`start` lines 229-382) -/

/-- Drain the event queue in order.  `quit` clears the running flag (the loop
still finishes the iteration); a SPACE keydown while in game over performs
the restart transition and `break`s out of the drain; a mousedown while
running dispatches clicks. -/
def drainEvents : List Event → World → Bool → World × Bool
  | [], w, run => (w, run)
  | Event.quit :: es, w, _ => drainEvents es w false
  | Event.keydown c :: es, w, run =>
      if w.gameOverFlag ∧ c = kSpace then (restartTransition w, run)
      else drainEvents es w run
  | Event.mousedown px py :: es, w, run =>
      if w.gameOverFlag then drainEvents es w run
      else drainEvents es (clickDispatchW px py w) run

/-- Normal-frame rendering (`start` lines 349-382): background, all sprites
in registry order (no `alive` test), queued circles, queued texts; then the
one-shot buffers are cleared. -/
def renderW (w : World) : World :=
  { w with
    lastFrame :=
      RenderCmd.background ::
        (w.sprites.filterMap (fun i => (w.store[i]?).map drawSprite)
          ++ w.drawCmds.map (fun c => RenderCmd.circle c.1 c.2.1 c.2.2)
          ++ w.textCmds.map (fun t => RenderCmd.text t.1 t.2.1 t.2.2.1 t.2.2.2)),
    drawCmds := [], textCmds := [] }

/-- Game-over screen rendering (`start` lines 256-276): background plus the
message and the restart prompt; the one-shot buffers are NOT cleared. -/
def gameOverRender (w : World) : World :=
  { w with lastFrame := [RenderCmd.background,
                         RenderCmd.overlayText w.gameOverMsg,
                         RenderCmd.overlayText "Press SPACE to Restart"] }

/-- The simulation-and-render part of a running frame: held keys, pre-physics
hooks, physics, overlap, post-physics hooks, render. -/
def simFrame (width height : ℤ) (held : List ℕ) (dt : ℚ) (w : World) : World :=
  renderW (runUpdates (overlapW (physicsW width height dt
    (runGameUpdates dt (runHeldKeys held w)))))

/-- One iteration of the main loop: drain events, then either the game-over
screen (skipping steps 3-6) or a full simulated frame. -/
def loopIter (width height : ℤ) (events : List Event) (held : List ℕ)
    (dt : ℚ) (w : World) : World × Bool :=
  let r := drainEvents events w true
  if r.1.gameOverFlag then (gameOverRender r.1, r.2)
  else (simFrame width height held dt r.1, r.2)

/-- Iterate the main loop `n` times with a fixed event-free input state. -/
def iterN (width height : ℤ) (dt : ℚ) : ℕ → World → World
  | 0, w => w
  | n + 1, w => (loopIter width height [] [] dt (iterN width height dt n w)).1

/-! ## Sprite creation (`sprite`, lines 134-154) -/

/-- Outcome of the backend's load-and-scale call (including the image cache
lookup): a handle on success, or a failure for any reason (missing file,
decode error, scale error). -/
inductive LoadResult where
  | ok (img : ℕ)
  | failed
deriving DecidableEq

/-- The image actually attached to a new sprite: `None` when no path was
given; on a load failure the exception is caught, a notice is printed, and
the sprite falls back to `image = None` (drawn as a colored rectangle). -/
def imageOfLoad : Option LoadResult → Option ℕ
  | none => none
  | some (LoadResult.ok i) => some i
  | some LoadResult.failed => none

/-- The sprite object built by `sprite(...)`: fresh rect, given color and
speed, optional lifetime, age 0, alive. -/
def mkNewSprite (load : Option LoadResult) (x y width height : ℤ)
    (color : ℕ × ℕ × ℕ) (speed : ℚ × ℚ) (lifetime : Option ℚ) : GameSprite :=
  { image := imageOfLoad load,
    rect := ⟨x, y, width, height⟩,
    color := color,
    speedx := speed.1,
    speedy := speed.2,
    lifetime := lifetime }

/-- `sprite(...)`: build the sprite (catching any load failure), append it to
the store and the live registry, and return its id.  The function is total:
no outcome of the load raises to the caller. -/
def spriteCreateW (load : Option LoadResult) (x y width height : ℤ)
    (color : ℕ × ℕ × ℕ) (speed : ℚ × ℚ) (lifetime : Option ℚ)
    (w : World) : World × ℕ :=
  ({ w with store := w.store ++ [mkNewSprite load x y width height color speed lifetime],
            sprites := w.sprites ++ [w.store.length] },
   w.store.length)

/-! ## Helper lemmas about the physics sub-steps -/

theorem bounceX_keepsY (width : ℤ) (s : GameSprite) :
    (bounceX width s).rect.y = s.rect.y ∧ (bounceX width s).rect.h = s.rect.h ∧
    (bounceX width s).speedy = s.speedy ∧ (bounceX width s).bounce = s.bounce := by
  unfold bounceX; split <;> exact ⟨rfl, rfl, rfl, rfl⟩

theorem bounceY_keepsX (height : ℤ) (s : GameSprite) :
    (bounceY height s).rect.x = s.rect.x ∧ (bounceY height s).rect.w = s.rect.w ∧
    (bounceY height s).speedx = s.speedx := by
  unfold bounceY; split <;> exact ⟨rfl, rfl, rfl⟩

theorem stepFollow_timers (fdx fdy : ℚ) (s : GameSprite) :
    (stepFollow fdx fdy s).age = s.age ∧ (stepFollow fdx fdy s).alive = s.alive ∧
    (stepFollow fdx fdy s).lifetime = s.lifetime := by
  unfold stepFollow; split <;> exact ⟨rfl, rfl, rfl⟩

theorem stepGravity_timers (dt : ℚ) (s : GameSprite) :
    (stepGravity dt s).age = s.age ∧ (stepGravity dt s).alive = s.alive ∧
    (stepGravity dt s).lifetime = s.lifetime := by
  unfold stepGravity; cases s.gravity <;> exact ⟨rfl, rfl, rfl⟩

theorem stepMove_timers (dt : ℚ) (s : GameSprite) :
    (stepMove dt s).age = s.age ∧ (stepMove dt s).alive = s.alive ∧
    (stepMove dt s).lifetime = s.lifetime :=
  ⟨rfl, rfl, rfl⟩

theorem stepBounce_timers (width height : ℤ) (s : GameSprite) :
    (stepBounce width height s).age = s.age ∧ (stepBounce width height s).alive = s.alive ∧
    (stepBounce width height s).lifetime = s.lifetime := by
  unfold stepBounce bounceY bounceX
  split <;> (try split) <;> (try split) <;> exact ⟨rfl, rfl, rfl⟩

theorem stepPlatforms_timers (plats : List Rect) (s : GameSprite) :
    (stepPlatforms plats s).age = s.age ∧ (stepPlatforms plats s).alive = s.alive ∧
    (stepPlatforms plats s).lifetime = s.lifetime := by
  unfold stepPlatforms
  split
  · cases findPlat s.rect plats <;> exact ⟨rfl, rfl, rfl⟩
  · exact ⟨rfl, rfl, rfl⟩

theorem stepLifetime_keeps (dt : ℚ) (s : GameSprite) :
    (stepLifetime dt s).lifetime = s.lifetime := by
  unfold stepLifetime; cases h : s.lifetime <;> simp [h]

/-- Age, aliveness and lifetime of a full physics step, for a sprite with a
lifetime: age advances by `dt` and the sprite dies as soon as the lifetime is
reached. -/
theorem physStep_timers (width height : ℤ) (plats : List Rect) (dt fdx fdy : ℚ)
    (s : GameSprite) (l : ℚ) (hl : s.lifetime = some l) :
    (physStep width height plats dt fdx fdy s).age = s.age + dt ∧
    (physStep width height plats dt fdx fdy s).alive
      = (if l ≤ s.age + dt then false else s.alive) ∧
    (physStep width height plats dt fdx fdy s).lifetime = some l := by
  obtain ⟨a1, v1, l1⟩ := stepFollow_timers fdx fdy s
  obtain ⟨a2, v2, l2⟩ := stepGravity_timers dt (stepFollow fdx fdy s)
  obtain ⟨a3, v3, l3⟩ := stepMove_timers dt (stepGravity dt (stepFollow fdx fdy s))
  obtain ⟨a4, v4, l4⟩ := stepBounce_timers width height
    (stepMove dt (stepGravity dt (stepFollow fdx fdy s)))
  obtain ⟨a5, v5, l5⟩ := stepPlatforms_timers plats
    (stepBounce width height (stepMove dt (stepGravity dt (stepFollow fdx fdy s))))
  have hage : (stepPlatforms plats (stepBounce width height (stepMove dt
      (stepGravity dt (stepFollow fdx fdy s))))).age = s.age := by
    rw [a5, a4, a3, a2, a1]
  have halive : (stepPlatforms plats (stepBounce width height (stepMove dt
      (stepGravity dt (stepFollow fdx fdy s))))).alive = s.alive := by
    rw [v5, v4, v3, v2, v1]
  have hlt : (stepPlatforms plats (stepBounce width height (stepMove dt
      (stepGravity dt (stepFollow fdx fdy s))))).lifetime = some l := by
    rw [l5, l4, l3, l2, l1, hl]
  unfold physStep stepLifetime
  rw [hlt]
  exact ⟨by simp [hage], by simp [hage, halive], by simp⟩

/-- `physStep` never changes the `lifetime` field. -/
theorem physStep_keeps_lifetime (width height : ℤ) (plats : List Rect)
    (dt fdx fdy : ℚ) (s : GameSprite) :
    (physStep width height plats dt fdx fdy s).lifetime = s.lifetime := by
  obtain ⟨-, -, l1⟩ := stepFollow_timers fdx fdy s
  obtain ⟨-, -, l2⟩ := stepGravity_timers dt (stepFollow fdx fdy s)
  obtain ⟨-, -, l3⟩ := stepMove_timers dt (stepGravity dt (stepFollow fdx fdy s))
  obtain ⟨-, -, l4⟩ := stepBounce_timers width height
    (stepMove dt (stepGravity dt (stepFollow fdx fdy s)))
  obtain ⟨-, -, l5⟩ := stepPlatforms_timers plats
    (stepBounce width height (stepMove dt (stepGravity dt (stepFollow fdx fdy s))))
  unfold physStep
  rw [stepLifetime_keeps, l5, l4, l3, l2, l1]

/-- First-match behaviour of the platform scan. -/
theorem findPlat_first (r : Rect) (pre post : List Rect) (p : Rect)
    (hpre : ∀ q ∈ pre, colliderect r q = false) (hp : colliderect r p = true) :
    findPlat r (pre ++ p :: post) = some p := by
  induction pre with
  | nil => simp [findPlat, hp]
  | cons q qs ih =>
      have hq : colliderect r q = false := hpre q (List.mem_cons_self q qs)
      simp only [List.cons_append, findPlat, hq]
      exact ih (fun x hx => hpre x (List.mem_cons_of_mem q hx))

/-! ## Claim C4: platform landing applies the first overlapping platform -/

/-- C4: for a gravity-enabled sprite with non-negative vertical velocity that
overlaps a registered platform after integration, the first overlapping
platform in registration order (and only that one) is applied: the sprite's
bottom is snapped exactly to that platform's top, vertical velocity becomes
0, and `on_ground` is set, for any approach speed. -/
theorem c4_platform_first_match (s : GameSprite) (pre post : List Rect) (p : Rect)
    (hg : s.gravity.isSome = true) (hv : 0 ≤ s.speedy)
    (hpre : ∀ q ∈ pre, colliderect s.rect q = false)
    (hp : colliderect s.rect p = true) :
    (stepPlatforms (pre ++ p :: post) s).rect.y + (stepPlatforms (pre ++ p :: post) s).rect.h
        = p.y ∧
    (stepPlatforms (pre ++ p :: post) s).speedy = 0 ∧
    (stepPlatforms (pre ++ p :: post) s).on_ground = true ∧
    stepPlatforms (pre ++ p :: post) s = stepPlatforms (pre ++ [p]) s := by
  have h1 : findPlat s.rect (pre ++ p :: post) = some p := findPlat_first _ _ _ _ hpre hp
  have h2 : findPlat s.rect (pre ++ [p]) = some p := findPlat_first _ _ _ _ hpre hp
  unfold stepPlatforms
  rw [if_pos ⟨hg, hv⟩, if_pos ⟨hg, hv⟩, h1, h2]
  refine ⟨?_, rfl, rfl, rfl⟩
  simp only []
  omega

/-- Witness for C4 at a concrete input: a sprite falling at speed 7 onto a
platform list whose first element misses, second overlaps, third is ignored. -/
def c4spr : GameSprite := { rect := ⟨0, 95, 10, 10⟩, speedy := 7, gravity := some 800 }

theorem c4_platform_first_match_witness :
    (stepPlatforms ([⟨100, 100, 10, 10⟩] ++ (⟨0, 100, 50, 5⟩ : Rect) :: [⟨0, 200, 50, 5⟩])
        c4spr).rect.y
      + (stepPlatforms ([⟨100, 100, 10, 10⟩] ++ (⟨0, 100, 50, 5⟩ : Rect) :: [⟨0, 200, 50, 5⟩])
        c4spr).rect.h = (100 : ℤ) ∧
    (stepPlatforms ([⟨100, 100, 10, 10⟩] ++ (⟨0, 100, 50, 5⟩ : Rect) :: [⟨0, 200, 50, 5⟩])
        c4spr).speedy = 0 ∧
    (stepPlatforms ([⟨100, 100, 10, 10⟩] ++ (⟨0, 100, 50, 5⟩ : Rect) :: [⟨0, 200, 50, 5⟩])
        c4spr).on_ground = true ∧
    stepPlatforms ([⟨100, 100, 10, 10⟩] ++ (⟨0, 100, 50, 5⟩ : Rect) :: [⟨0, 200, 50, 5⟩]) c4spr
      = stepPlatforms ([⟨100, 100, 10, 10⟩] ++ [(⟨0, 100, 50, 5⟩ : Rect)]) c4spr :=
  c4_platform_first_match c4spr [⟨100, 100, 10, 10⟩] [⟨0, 200, 50, 5⟩] ⟨0, 100, 50, 5⟩
    rfl (by norm_num [c4spr]) (by decide) (by decide)

/-! ## Claim C5: edge bounce negates velocity and clamps inside -/

/-- The sprite of the spec's end-to-end bounce scenario. -/
def c5spr : GameSprite := { rect := ⟨0, 0, 10, 10⟩, speedx := 100, bounce := true }

/-- C5: a bouncing sprite whose rectangle crosses a horizontal window bound
after integration has its horizontal velocity negated and its rectangle
clamped fully inside on that axis (independently the same vertically, for a
sprite that fits the window); concretely, the sprite at `(0,0,10,10)` with
velocity `(100,0)` in a window of width 50 ends one `dt=1` step with
`velocity.x = -100` and `rect.x = 40`. -/
theorem c5_bounce (W H : ℤ) :
    ((physStep 50 480 [] 1 0 0 c5spr).speedx = -100 ∧
     (physStep 50 480 [] 1 0 0 c5spr).rect.x = 40) ∧
    (∀ s : GameSprite, s.bounce = true → 0 ≤ s.rect.w → s.rect.w ≤ W →
      (s.rect.x < 0 ∨ s.rect.x + s.rect.w > W) →
      (stepBounce W H s).speedx = -s.speedx ∧
      0 ≤ (stepBounce W H s).rect.x ∧
      (stepBounce W H s).rect.x + (stepBounce W H s).rect.w ≤ W) ∧
    (∀ s : GameSprite, s.bounce = true → 0 ≤ s.rect.h → s.rect.h ≤ H →
      (s.rect.y < 0 ∨ s.rect.y + s.rect.h > H) →
      (stepBounce W H s).speedy = -s.speedy ∧
      0 ≤ (stepBounce W H s).rect.y ∧
      (stepBounce W H s).rect.y + (stepBounce W H s).rect.h ≤ H) := by
  refine ⟨?_, ?_, ?_⟩
  · constructor <;>
      norm_num [physStep, stepFollow, stepGravity, stepMove, stepBounce, bounceX, bounceY,
        stepPlatforms, stepLifetime, addTrunc, truncQ, c5spr]
  · intro s hb hw0 hwW hcross
    obtain ⟨ky1, ky2, ky3⟩ := bounceY_keepsX H (bounceX W s)
    unfold stepBounce
    rw [if_pos hb, ky1, ky2, ky3]
    unfold bounceX
    rw [if_pos hcross]
    refine ⟨rfl, ?_, ?_⟩
    · exact le_max_left 0 _
    · simp only []
      have h1 : max 0 (min s.rect.x (W - s.rect.w)) ≤ W - s.rect.w :=
        max_le (by omega) (min_le_right _ _)
      omega
  · intro s hb hh0 hhH hcross
    obtain ⟨kx1, kx2, kx3, kx4⟩ := bounceX_keepsY W s
    unfold stepBounce
    rw [if_pos hb]
    unfold bounceY
    rw [kx1, kx2, if_pos hcross, kx3]
    refine ⟨rfl, ?_, ?_⟩
    · exact le_max_left 0 _
    · simp only []
      have h1 : max 0 (min s.rect.y (H - s.rect.h)) ≤ H - s.rect.h :=
        max_le (by omega) (min_le_right _ _)
      omega

/-- A leftward sprite below the left bound and a downward sprite below the
bottom bound, for the C5 witness. -/
def c5left : GameSprite := { rect := ⟨-5, 20, 10, 10⟩, speedx := -30, bounce := true }

def c5down : GameSprite := { rect := ⟨20, 475, 10, 10⟩, speedy := 12, bounce := true }

theorem c5_bounce_witness :
    ((physStep 50 480 [] 1 0 0 c5spr).speedx = -100 ∧
     (physStep 50 480 [] 1 0 0 c5spr).rect.x = 40) ∧
    ((stepBounce 640 480 c5left).speedx = -c5left.speedx ∧
      0 ≤ (stepBounce 640 480 c5left).rect.x ∧
      (stepBounce 640 480 c5left).rect.x + (stepBounce 640 480 c5left).rect.w ≤ 640) ∧
    ((stepBounce 640 480 c5down).speedy = -c5down.speedy ∧
      0 ≤ (stepBounce 640 480 c5down).rect.y ∧
      (stepBounce 640 480 c5down).rect.y + (stepBounce 640 480 c5down).rect.h ≤ 480) :=
  ⟨(c5_bounce 640 480).1,
   (c5_bounce 640 480).2.1 c5left rfl (by decide) (by decide) (by decide),
   (c5_bounce 640 480).2.2 c5down rfl (by decide) (by decide) (by decide)⟩

/-! ## Claim C3: when the on-ground flag is updated -/

/-- C3 (amended): the on-ground flag is recomputed only on frames where the
gravity-enabled sprite's post-gravity vertical velocity is non-negative; on
those frames it is true exactly when the platform scan found an overlap, but
on frames with negative vertical velocity the whole sub-step is skipped and
the flag (and the rest of the sprite) is left unchanged. -/
theorem c3_on_ground_guarded (plats : List Rect) (s : GameSprite) (g : ℚ)
    (hg : s.gravity = some g) :
    (0 ≤ s.speedy →
      (stepPlatforms plats s).on_ground = (findPlat s.rect plats).isSome) ∧
    (s.speedy < 0 → stepPlatforms plats s = s) := by
  constructor
  · intro hv
    unfold stepPlatforms
    rw [if_pos ⟨by rw [hg]; rfl, hv⟩]
    cases findPlat s.rect plats <;> rfl
  · intro hv
    unfold stepPlatforms
    rw [if_neg]
    rintro ⟨-, h⟩
    exact absurd hv (not_lt.mpr h)

/-- A gravity-enabled sprite moving upward (e.g. just made to jump) whose
on-ground flag is stale from an earlier landing. -/
def c3spr : GameSprite :=
  { rect := ⟨0, 100, 10, 10⟩, speedy := -100, gravity := some 50, on_ground := true }

/-- Counterexample to C3 as stated: on a frame with negative vertical
velocity and no platform overlap at all (the platform list is empty), the
sprite still reports `on_ground = true` after the physics step, where the
claim requires `false`. -/
theorem c3_counterexample :
    c3spr.gravity.isSome = true ∧
    (stepGravity 1 c3spr).speedy < 0 ∧
    (physStep 640 480 [] 1 0 0 c3spr).on_ground = true := by
  refine ⟨rfl, ?_, ?_⟩
  · norm_num [stepGravity, c3spr]
  · norm_num [physStep, stepFollow, stepGravity, stepMove, stepBounce, bounceX, bounceY,
      stepPlatforms, stepLifetime, findPlat, addTrunc, truncQ, c3spr]

/-- Witness for the amended C3 at concrete inputs: with non-negative vertical
velocity the flag tracks the scan result (here: no platforms, so `false`),
and with negative vertical velocity the sub-step is the identity. -/
def c3fall : GameSprite := { rect := ⟨0, 0, 10, 10⟩, speedy := 3, gravity := some 50 }

theorem c3_on_ground_guarded_witness :
    ((stepPlatforms [] c3fall).on_ground = (findPlat c3fall.rect []).isSome) ∧
    (stepPlatforms [] c3spr = c3spr) :=
  ⟨(c3_on_ground_guarded [] c3fall 50 rfl).1 (by norm_num [c3fall]),
   (c3_on_ground_guarded [] c3spr 50 rfl).2 (by norm_num [c3spr])⟩

/-! ## Claim C10: integer coordinates and truncation of position updates -/

/-- C10 (amended): positions are integer rectangle coordinates and every
per-frame position update adds a real-valued delta and truncates toward
zero.  A displacement `d` with `0 ≤ d < 1` leaves a non-negative coordinate
unchanged, and fractional remainders are discarded each frame rather than
accumulated (iterating a half-pixel displacement any number of times moves
nothing); but truncation is toward zero, so a negative fractional
displacement `-1 < d < 0` moves a positive coordinate a whole pixel down. -/
theorem c10_truncation (dt : ℚ) (s : GameSprite) :
    ((stepMove dt s).rect.x = addTrunc s.rect.x (s.speedx * dt) ∧
     (stepMove dt s).rect.y = addTrunc s.rect.y (s.speedy * dt)) ∧
    (∀ (x : ℤ) (d : ℚ), 0 ≤ x → 0 ≤ d → d < 1 → addTrunc x d = x) ∧
    (∀ (x : ℤ) (d : ℚ), 1 ≤ x → -1 < d → d < 0 → addTrunc x d = x - 1) ∧
    (∀ (x : ℤ) (n : ℕ), 0 ≤ x → Nat.iterate (fun z => addTrunc z (1/2)) n x = x) := by
  have hsmall : ∀ (x : ℤ) (d : ℚ), 0 ≤ x → 0 ≤ d → d < 1 → addTrunc x d = x := by
    intro x d hx h0 h1
    unfold addTrunc truncQ
    rw [if_pos (by positivity), Int.floor_eq_iff]
    constructor
    · simpa using h0
    · linarith
  refine ⟨⟨rfl, rfl⟩, hsmall, ?_, ?_⟩
  · intro x d hx h0 h1
    have hx1 : (1 : ℚ) ≤ (x : ℚ) := by exact_mod_cast hx
    unfold addTrunc truncQ
    rw [if_pos (by linarith), Int.floor_eq_iff]
    constructor
    · push_cast
      linarith
    · push_cast
      linarith
  · intro x n hx
    induction n with
    | zero => rfl
    | succ m ih =>
        rw [Function.iterate_succ_apply, hsmall x (1/2) hx (by norm_num) (by norm_num)]
        exact ih

/-- Counterexample to C10 as stated: a per-frame displacement of `-1/2`
(absolute value below one pixel) applied to a sprite at `x = 5` moves it to
`x = 4` instead of leaving the coordinate unchanged. -/
def c10spr : GameSprite := { rect := ⟨5, 0, 10, 10⟩, speedx := -1/2 }

theorem c10_counterexample :
    |(-1/2 : ℚ)| < 1 ∧ c10spr.rect.x = 5 ∧ (stepMove 1 c10spr).rect.x = 4 := by
  refine ⟨by rw [abs_lt]; constructor <;> norm_num, rfl, ?_⟩
  norm_num [stepMove, c10spr, addTrunc, truncQ]

/-- Witness for the amended C10 at concrete inputs. -/
theorem c10_truncation_witness :
    ((stepMove 1 c10spr).rect.x = addTrunc c10spr.rect.x (c10spr.speedx * 1) ∧
     (stepMove 1 c10spr).rect.y = addTrunc c10spr.rect.y (c10spr.speedy * 1)) ∧
    addTrunc 7 (2/3) = 7 ∧
    addTrunc 5 (-1/2) = 4 ∧
    Nat.iterate (fun z => addTrunc z (1/2)) 3 2 = 2 := by
  refine ⟨(c10_truncation 1 c10spr).1, ?_, ?_, ?_⟩
  · exact (c10_truncation 1 c10spr).2.1 7 (2/3) (by norm_num) (by norm_num) (by norm_num)
  · have h := (c10_truncation 1 c10spr).2.2.1 5 (-1/2) (by norm_num) (by norm_num) (by norm_num)
    rw [h]
    rfl
  · exact (c10_truncation 1 c10spr).2.2.2 2 3 (by norm_num)

/-! ## Dead sprites and the physics pass -/

/-- A store entry that is dead is never written back by the physics pass
(dead sprites are not simulated). -/
theorem physLoop_dead_store (W H : ℤ) (dt : ℚ) (platIds : List ℕ) (i : ℕ) :
    ∀ (pending : List ℕ) (store : List GameSprite) (reg : List ℕ) (s : GameSprite),
      store[i]? = some s → s.alive = false →
      (physLoop W H dt platIds pending store reg).1[i]? = some s := by
  intro pending
  induction pending with
  | nil =>
      intro store reg s h _
      simpa [physLoop] using h
  | cons j js ih =>
      intro store reg s h ha
      unfold physLoop
      by_cases hji : j = i
      · subst hji
        rw [h]
        simp only [ha, Bool.false_eq_true, if_false]
        exact ih store (reg.erase j) s h ha
      · cases hsj : store[j]? with
        | none => exact ih store reg s h ha
        | some t =>
            by_cases hta : t.alive
            · simp only [hta, if_true]
              refine ih _ reg s ?_ ha
              rw [List.getElem?_set_ne (by omega)]
              exact h
            · simp only [hta, Bool.false_eq_true, if_false]
              exact ih store (reg.erase j) s h ha

/-- Occurrence-count bookkeeping: every pending occurrence of a dead sprite's
id is erased from the registry by the physics pass. -/
theorem physLoop_dead_count (W H : ℤ) (dt : ℚ) (platIds : List ℕ) (i : ℕ) :
    ∀ (pending : List ℕ) (store : List GameSprite) (reg : List ℕ) (s : GameSprite),
      store[i]? = some s → s.alive = false → pending.count i ≤ reg.count i →
      (physLoop W H dt platIds pending store reg).2.count i + pending.count i
        ≤ reg.count i := by
  intro pending
  induction pending with
  | nil =>
      intro store reg s _ _ _
      simp [physLoop]
  | cons j js ih =>
      intro store reg s h ha hc
      unfold physLoop
      by_cases hji : j = i
      · subst hji
        rw [h]
        simp only [ha, Bool.false_eq_true, if_false]
        have hcc : (j :: js).count j = js.count j + 1 := by
          simp [List.count_cons]
        have hjreg : 1 ≤ reg.count j := by omega
        have hc' : js.count j ≤ (reg.erase j).count j := by
          rw [List.count_erase_self]
          omega
        have hh := ih store (reg.erase j) s h ha hc'
        rw [List.count_erase_self] at hh
        omega
      · have hcnt : (j :: js).count i = js.count i := by
          simp [List.count_cons, Ne.symm hji]
        cases hsj : store[j]? with
        | none =>
            show (physLoop W H dt platIds js store reg).2.count i + (j :: js).count i
              ≤ reg.count i
            rw [hcnt]
            exact ih store reg s h ha (by omega)
        | some t =>
            by_cases hta : t.alive
            · simp only [hta, if_true]
              rw [hcnt]
              have hstore2 : (store.set j (physStep W H (platRectsOf store platIds)
                  dt 0 0 t))[i]? = some s := by
                rw [List.getElem?_set_ne (by omega)]
                exact h
              have hh := ih _ reg s hstore2 ha (by omega)
              omega
            · simp only [hta, Bool.false_eq_true, if_false]
              rw [hcnt]
              have hc' : js.count i ≤ (reg.erase j).count i := by
                rw [List.count_erase_of_ne (Ne.symm hji)]
                omega
              have hh := ih store (reg.erase j) s h ha hc'
              rw [List.count_erase_of_ne (Ne.symm hji)] at hh
              omega

/-- A dead sprite is removed from the registry by the physics pass that
iterates over it. -/
theorem physLoop_removes_dead (W H : ℤ) (dt : ℚ) (platIds : List ℕ)
    (store : List GameSprite) (reg : List ℕ) (i : ℕ) (s : GameSprite)
    (h : store[i]? = some s) (ha : s.alive = false) :
    i ∉ (physLoop W H dt platIds reg store reg).2 := by
  have hcount := physLoop_dead_count W H dt platIds i reg store reg s h ha (Nat.le_refl _)
  exact List.count_eq_zero.mp (by omega)

/-! ## Claim C6: lifetime expiry -/

/-- Iterated physics frames of a single sprite (one not following a target,
so the follow displacement is 0). -/
def iterPhys (width height : ℤ) (plats : List Rect) (dt : ℚ) :
    ℕ → GameSprite → GameSprite
  | 0, s => s
  | n + 1, s => physStep width height plats dt 0 0 (iterPhys width height plats dt n s)

theorem iterPhys_lifetime (W H : ℤ) (plats : List Rect) (dt : ℚ) (s : GameSprite) :
    ∀ n, (iterPhys W H plats dt n s).lifetime = s.lifetime := by
  intro n
  induction n with
  | zero => rfl
  | succ m ih => rw [iterPhys, physStep_keeps_lifetime, ih]

/-- C6: a sprite created with lifetime `L` is alive at every frame where its
cumulative age (incremented by `dt` each physics step) is below `L`, is
marked not-alive at the first frame where the age reaches or exceeds `L`,
and once expired it is reaped (removed from the registry) by the next
physics pass that iterates over it. -/
theorem c6_lifetime (W H : ℤ) (plats : List Rect) (dt L : ℚ) (s : GameSprite)
    (hl : s.lifetime = some L) (ha0 : s.age = 0) (hal : s.alive = true)
    (hdt : 0 < dt) (hL : 0 < L) :
    (∀ n : ℕ, (iterPhys W H plats dt n s).age = n * dt ∧
      ((iterPhys W H plats dt n s).alive = true ↔ (n : ℚ) * dt < L)) ∧
    (∀ (n : ℕ) (wd ht : ℤ) (dtf : ℚ) (platIds : List ℕ)
        (store : List GameSprite) (reg : List ℕ) (i : ℕ),
      L ≤ (n : ℚ) * dt → store[i]? = some (iterPhys W H plats dt n s) →
      i ∉ (physLoop wd ht dtf platIds reg store reg).2) := by
  have main : ∀ n : ℕ, (iterPhys W H plats dt n s).age = n * dt ∧
      ((iterPhys W H plats dt n s).alive = true ↔ (n : ℚ) * dt < L) := by
    intro n
    induction n with
    | zero =>
        refine ⟨by simp [iterPhys, ha0], ?_⟩
        simp [iterPhys, hal, hL]
    | succ m ih =>
        have hlt : (iterPhys W H plats dt m s).lifetime = some L := by
          rw [iterPhys_lifetime]; exact hl
        obtain ⟨hage, halive, -⟩ := physStep_timers W H plats dt 0 0 _ L hlt
        have hstep : iterPhys W H plats dt (m + 1) s
            = physStep W H plats dt 0 0 (iterPhys W H plats dt m s) := rfl
        rw [hstep, hage, halive, ih.1]
        have hcast : ((m + 1 : ℕ) : ℚ) * dt = (m : ℚ) * dt + dt := by
          push_cast
          ring
        constructor
        · rw [hcast]
        · by_cases hc : L ≤ (m : ℚ) * dt + dt
          · rw [if_pos hc, hcast]
            constructor
            · intro hfalse
              exact absurd hfalse (by simp)
            · intro hlt2
              exact absurd hc (not_le.mpr hlt2)
          · rw [if_neg hc, hcast]
            have hmlt : (m : ℚ) * dt < L := by
              push_cast at hc
              nlinarith
            rw [ih.2.mpr hmlt]
            simp only [true_iff]
            exact not_le.mp hc
  refine ⟨main, ?_⟩
  intro n wd ht dtf platIds store reg i hLe hstore
  have halv : (iterPhys W H plats dt n s).alive = false := by
    cases hb : (iterPhys W H plats dt n s).alive with
    | false => rfl
    | true => exact absurd ((main n).2.mp hb) (not_lt.mpr hLe)
  exact physLoop_removes_dead wd ht dtf platIds store reg i _ hstore halv

/-- Witness for C6: a sprite with lifetime 2 stepped at `dt = 1` for 3
frames has age 3, is not alive, and is reaped by the following physics
pass. -/
def c6spr : GameSprite := { rect := ⟨0, 0, 5, 5⟩, lifetime := some 2 }

theorem c6_lifetime_witness :
    ((iterPhys 640 480 [] 1 3 c6spr).age = (3 : ℕ) * 1 ∧
      ((iterPhys 640 480 [] 1 3 c6spr).alive = true ↔ ((3 : ℕ) : ℚ) * 1 < 2)) ∧
    (0 : ℕ) ∉ (physLoop 640 480 1 [] [0] [iterPhys 640 480 [] 1 3 c6spr] [0]).2 :=
  ⟨(c6_lifetime 640 480 [] 1 2 c6spr rfl rfl rfl (by norm_num) (by norm_num)).1 3,
   (c6_lifetime 640 480 [] 1 2 c6spr rfl rfl rfl (by norm_num) (by norm_num)).2
     3 640 480 1 [] [iterPhys 640 480 [] 1 3 c6spr] [0] 0 (by norm_num) rfl⟩

/-! ## Claim C1: what dead sprites are excluded from -/

/-- Index `i` names a sprite object that exists and is dead. -/
def deadAt (w : World) (i : ℕ) : Prop :=
  ∃ s, w.store[i]? = some s ∧ s.alive = false

/-- No callback command revives a dead sprite. -/
theorem runAct_deadAt (a : Act) (w : World) (i : ℕ) (h : deadAt w i) :
    deadAt (runAct a w) i := by
  obtain ⟨s, hs, ha⟩ := h
  have hlen : i < w.store.length := (List.getElem?_eq_some.mp hs).1
  cases a with
  | spawn t =>
      refine ⟨s, ?_, ha⟩
      show (w.store ++ [t])[i]? = some s
      rw [List.getElem?_append_left hlen]
      exact hs
  | destroyId j =>
      show deadAt (match w.store[j]? with
        | some t => { w with store := w.store.set j { t with alive := false } }
        | none => w) i
      cases hj : w.store[j]? with
      | none => exact ⟨s, hs, ha⟩
      | some t =>
          by_cases hij : i = j
          · subst hij
            rw [hs] at hj
            cases hj
            refine ⟨{ s with alive := false }, ?_, rfl⟩
            show (w.store.set i { s with alive := false })[i]? = some { s with alive := false }
            rw [List.getElem?_set_self', hs]
            rfl
          · refine ⟨s, ?_, ha⟩
            show (w.store.set j { t with alive := false })[i]? = some s
            rw [List.getElem?_set_ne (by omega)]
            exact hs
  | incCounter => exact ⟨s, hs, ha⟩
  | setGameOver m => exact ⟨s, hs, ha⟩
  | drawCircle x y radius => exact ⟨s, hs, ha⟩
  | writeText t x y size => exact ⟨s, hs, ha⟩
  | regKey c p => exact ⟨s, hs, ha⟩
  | regClick j p => exact ⟨s, hs, ha⟩
  | regGameUpdate p => exact ⟨s, hs, ha⟩
  | regUpdate p => exact ⟨s, hs, ha⟩
  | regOverlap j k p => exact ⟨s, hs, ha⟩
  | regStart p => exact ⟨s, hs, ha⟩

theorem runProg_deadAt (p : List Act) (w : World) (i : ℕ) (h : deadAt w i) :
    deadAt (runProg p w) i := by
  induction p generalizing w with
  | nil => exact h
  | cons a q ih => exact ih (runAct a w) (runAct_deadAt a w i h)

/-- A dead sprite never satisfies the overlap-firing condition. -/
theorem overlapCondW_dead (i j k : ℕ) (w : World) (h : deadAt w k)
    (hk : i = k ∨ j = k) : overlapCondW i j w = false := by
  obtain ⟨s, hs, ha⟩ := h
  unfold overlapCondW
  rcases hk with rfl | rfl
  · rw [hs]
    cases w.store[j]? <;> simp [ha]
  · rw [hs]
    cases w.store[i]? <;> simp [ha]

/-- The overlap notifier never fires a triple naming a dead sprite, even
though earlier callbacks in the same pass may mutate the world. -/
theorem overlapLoop_dead (ts : List (ℕ × ℕ × List Act)) :
    ∀ (w : World) (i : ℕ), deadAt w i →
      ∀ t ∈ (overlapLoop ts w).2, t.1 ≠ i ∧ t.2.1 ≠ i := by
  induction ts with
  | nil =>
      intro w i _ t ht
      simp [overlapLoop] at ht
  | cons tr rest ih =>
      intro w i h t ht
      obtain ⟨a, b, p⟩ := tr
      unfold overlapLoop at ht
      by_cases hc : overlapCondW a b w = true
      · rw [if_pos hc] at ht
        simp only [List.mem_cons] at ht
        rcases ht with rfl | ht
        · constructor
          · rintro rfl
            rw [overlapCondW_dead a b a w h (Or.inl rfl)] at hc
            exact Bool.false_ne_true hc
          · rintro rfl
            rw [overlapCondW_dead a b b w h (Or.inr rfl)] at hc
            exact Bool.false_ne_true hc
        · exact ih (runProg p w) i (runProg_deadAt p w i h) t ht
      · rw [if_neg hc] at ht
        exact ih w i h t ht

/-- C1 (amended): once a sprite's alive flag is false, the physics pass
removes it from the registry without simulating it (its store entry is
untouched) and the overlap notifier never invokes a callback naming it.
Click dispatch and the draw pass, however, do not test `alive` (see the
counterexample). -/
theorem c1_dead_exclusion :
    (∀ (W H : ℤ) (dt : ℚ) (platIds : List ℕ) (store : List GameSprite)
        (reg : List ℕ) (i : ℕ) (s : GameSprite),
      store[i]? = some s → s.alive = false →
      (physLoop W H dt platIds reg store reg).1[i]? = some s ∧
      i ∉ (physLoop W H dt platIds reg store reg).2) ∧
    (∀ (ts : List (ℕ × ℕ × List Act)) (w : World) (i : ℕ),
      deadAt w i → ∀ t ∈ (overlapLoop ts w).2, t.1 ≠ i ∧ t.2.1 ≠ i) := by
  constructor
  · intro W H dt platIds store reg i s h ha
    exact ⟨physLoop_dead_store W H dt platIds i reg store reg s h ha,
           physLoop_removes_dead W H dt platIds store reg i s h ha⟩
  · exact overlapLoop_dead

/-- A dead sprite object still registered as a click target. -/
def c1dead : GameSprite := { rect := ⟨0, 0, 10, 10⟩, alive := false }

def c1ClickWorld : World := { store := [c1dead], clickHandlers := [(0, [[Act.incCounter]])] }

/-- Two live overlapping sprites; the overlap callback kills the first. -/
def c1A : GameSprite := { rect := ⟨0, 0, 10, 10⟩, color := (1, 2, 3) }

def c1B : GameSprite := { rect := ⟨5, 5, 10, 10⟩, color := (4, 5, 6) }

def c1DrawWorld : World :=
  { store := [c1A, c1B], sprites := [0, 1], overlapHandlers := [(0, 1, [Act.destroyId 0])] }

/-- Counterexample to C1 as stated: (a) a dead sprite (even one already
reaped from the registry) still has its click callbacks invoked when its
rectangle contains the click point, and (b) a sprite killed by an overlap
callback after this frame's physics sweep is still rendered by the draw
pass of the same frame. -/
theorem c1_counterexample :
    (c1dead.alive = false ∧
      ((loopIter 640 480 [Event.mousedown 5 5] [] 1 c1ClickWorld).1).counter = 1) ∧
    ((((loopIter 640 480 [] [] 1 c1DrawWorld).1).store[0]?).map GameSprite.alive
        = some false ∧
      RenderCmd.fillRect (1, 2, 3) ⟨0, 0, 10, 10⟩
        ∈ ((loopIter 640 480 [] [] 1 c1DrawWorld).1).lastFrame) := by
  refine ⟨⟨rfl, ?_⟩, ?_, ?_⟩
  · norm_num [loopIter, drainEvents, clickDispatchW, clickLoop, collidepoint,
      runProgs, runProg, runAct, simFrame, runHeldKeys, heldLoop, runGameUpdates,
      runUpdates, physicsW, physLoop, overlapW, overlapLoop, renderW,
      c1ClickWorld, c1dead]
  · norm_num [loopIter, drainEvents, simFrame, runHeldKeys, heldLoop, runGameUpdates,
      runProgs, runProg, runAct, physicsW, physLoop, platRectsOf, physStep, stepFollow,
      stepGravity, stepMove, stepBounce, stepPlatforms, stepLifetime, addTrunc_zero,
      overlapW, overlapLoop, overlapCondW, colliderect, runUpdates, renderW, drawSprite,
      c1DrawWorld, c1A, c1B]
  · norm_num [loopIter, drainEvents, simFrame, runHeldKeys, heldLoop, runGameUpdates,
      runProgs, runProg, runAct, physicsW, physLoop, platRectsOf, physStep, stepFollow,
      stepGravity, stepMove, stepBounce, stepPlatforms, stepLifetime, addTrunc_zero,
      overlapW, overlapLoop, overlapCondW, colliderect, runUpdates, renderW, drawSprite,
      c1DrawWorld, c1A, c1B]

/-- Witness for the amended C1 at concrete inputs: the dead sprite survives
the physics pass untouched in the store, vanishes from the registry, and no
overlap triple naming it fires. -/
theorem c1_dead_exclusion_witness :
    ((physLoop 640 480 1 [] [0] [c1dead] [0]).1[0]? = some c1dead ∧
      (0 : ℕ) ∉ (physLoop 640 480 1 [] [0] [c1dead] [0]).2) ∧
    (∀ t ∈ (overlapLoop [(0, 1, [Act.incCounter])] c1ClickWorld).2,
      t.1 ≠ 0 ∧ t.2.1 ≠ 0) :=
  ⟨c1_dead_exclusion.1 640 480 1 [] [c1dead] [0] 0 c1dead rfl rfl,
   c1_dead_exclusion.2 [(0, 1, [Act.incCounter])] c1ClickWorld 0 ⟨c1dead, rfl, rfl⟩⟩

/-! ## Claim C7: the overlap notifier is level-triggered -/

/-- A program made only of counter increments leaves the sprite store
unchanged. -/
theorem runProg_counterOnly_store :
    ∀ (p : List Act), (∀ x ∈ p, x = Act.incCounter) →
      ∀ w : World, (runProg p w).store = w.store := by
  intro p
  induction p with
  | nil => intro _ w; rfl
  | cons a q ih =>
      intro hp w
      have ha := hp a (List.mem_cons_self a q)
      subst ha
      have h2 := ih (fun x hx => hp x (List.mem_cons_of_mem _ hx)) (runAct Act.incCounter w)
      rw [show runProg (Act.incCounter :: q) w = runProg q (runAct Act.incCounter w) from rfl,
        h2]
      rfl

/-- The overlap condition only reads the store. -/
theorem overlapCondW_store_eq (i j : ℕ) (w w' : World) (h : w'.store = w.store) :
    overlapCondW i j w' = overlapCondW i j w := by
  unfold overlapCondW
  rw [h]

/-- For counter-only callbacks the fired triples of one overlap pass are
exactly the registered triples whose sprites are both alive and overlapping
at the start of the pass, kept in registration order. -/
theorem overlapLoop_counterOnly :
    ∀ (ts : List (ℕ × ℕ × List Act)),
      (∀ t ∈ ts, ∀ x ∈ t.2.2, x = Act.incCounter) →
      ∀ w : World,
        (overlapLoop ts w).2 = ts.filter (fun t => overlapCondW t.1 t.2.1 w) := by
  intro ts
  induction ts with
  | nil => intro _ w; simp [overlapLoop]
  | cons tr rest ih =>
      intro hts w
      obtain ⟨a, b, p⟩ := tr
      have hp : ∀ x ∈ p, x = Act.incCounter := hts (a, b, p) (List.mem_cons_self _ _)
      have hrest := ih (fun t ht => hts t (List.mem_cons_of_mem _ ht))
      unfold overlapLoop
      by_cases hc : overlapCondW a b w = true
      · rw [if_pos hc]
        simp only [List.filter_cons, hc, if_pos]
        show (a, b, p) :: (overlapLoop rest (runProg p w)).2
            = (a, b, p) :: rest.filter (fun t => overlapCondW t.1 t.2.1 w)
        congr 1
        rw [hrest (runProg p w)]
        apply List.filter_congr
        intro t _
        exact overlapCondW_store_eq t.1 t.2.1 w (runProg p w)
          (runProg_counterOnly_store p hp w)
      · rw [if_neg hc]
        rw [hrest w]
        have hcf : overlapCondW a b w = false := Bool.not_eq_true _ |>.mp hc
        simp [List.filter_cons, hcf]

/-- The two stationary overlapping sprites of the spec's scenario, plus the
frame they render to. -/
def c7A : GameSprite := { rect := ⟨0, 0, 10, 10⟩ }

def c7B : GameSprite := { rect := ⟨5, 5, 10, 10⟩ }

def c7Frame : List RenderCmd :=
  [RenderCmd.background, RenderCmd.fillRect (0, 0, 255) ⟨0, 0, 10, 10⟩,
   RenderCmd.fillRect (0, 0, 255) ⟨5, 5, 10, 10⟩]

def c7World : World :=
  { store := [c7A, c7B], sprites := [0, 1],
    overlapHandlers := [(0, 1, [Act.incCounter])], lastFrame := c7Frame }

theorem getElem?_cons_one {α : Type _} (a : α) (l : List α) : (a :: l)[1]? = l[0]? := by
  exact List.getElem?_cons_succ

/-- One event-free frame of the scenario world increments the counter and
changes nothing else. -/
theorem c7_frame_step (c : ℕ) :
    loopIter 640 480 [] [] 1 { c7World with counter := c }
      = ({ c7World with counter := c + 1 }, true) := by
  norm_num [List.filterMap_cons, getElem?_cons_one,
    loopIter, drainEvents, simFrame, runHeldKeys, heldLoop, runGameUpdates,
    runProgs, runProg, runAct, physicsW, physLoop, platRectsOf, physStep, stepFollow,
    stepGravity, stepMove, stepBounce, stepPlatforms, stepLifetime, addTrunc_zero,
    overlapW, overlapLoop, overlapCondW, colliderect, runUpdates, renderW, drawSprite,
    c7World, c7A, c7B, c7Frame]

/-- C7: a registered overlap triple fires exactly once per frame, if and
only if both sprites are alive and their rectangles overlap (level-triggered,
re-checked every frame), in registration order; consequently two stationary
overlapping live sprites with a counter-incrementing callback reach counter
`N` after `N` frames. -/
theorem c7_overlap_every_frame :
    (∀ (ts : List (ℕ × ℕ × List Act)),
      (∀ t ∈ ts, ∀ x ∈ t.2.2, x = Act.incCounter) →
      ∀ w : World,
        (overlapLoop ts w).2 = ts.filter (fun t => overlapCondW t.1 t.2.1 w)) ∧
    (∀ n : ℕ, (iterN 640 480 1 n c7World).counter = n) := by
  refine ⟨overlapLoop_counterOnly, ?_⟩
  have hiter : ∀ n : ℕ, iterN 640 480 1 n c7World = { c7World with counter := n } := by
    intro n
    induction n with
    | zero => rfl
    | succ m ih =>
        show (loopIter 640 480 [] [] 1 (iterN 640 480 1 m c7World)).1 = _
        rw [ih, c7_frame_step]
  intro n
  rw [hiter n]

/-- Witness for C7 at concrete inputs: the single registered triple fires
(its sprites are alive and overlap), and three frames yield counter 3. -/
theorem c7_overlap_every_frame_witness :
    (overlapLoop [(0, 1, [Act.incCounter])] c7World).2
      = [(0, 1, [Act.incCounter])].filter
          (fun t => overlapCondW t.1 t.2.1 c7World) ∧
    (iterN 640 480 1 3 c7World).counter = 3 :=
  ⟨c7_overlap_every_frame.1 [(0, 1, [Act.incCounter])]
      (by intro t ht x hx; simp at ht; rw [ht] at hx; simpa using hx) c7World,
   c7_overlap_every_frame.2 3⟩

/-! ## Claim C2: what happens in the iteration that handles a restart -/

/-- C2 (amended): a SPACE keydown drained while the game-over flag is set
performs the restart transition and stops draining further events, but the
same iteration then continues with a full simulated frame on the freshly
reset state — held-key dispatch, pre-physics hooks, physics, overlap,
post-physics hooks and rendering all run before the next iteration (provided
no on-start callback re-declares game over). -/
theorem c2_restart_same_iteration (W H : ℤ) (rest : List Event) (held : List ℕ)
    (dt : ℚ) (w : World) (hgo : w.gameOverFlag = true)
    (h2 : (restartTransition w).gameOverFlag = false) :
    loopIter W H (Event.keydown kSpace :: rest) held dt w
      = (simFrame W H held dt (restartTransition w), true) := by
  have hdrain : drainEvents (Event.keydown kSpace :: rest) w true
      = (restartTransition w, true) := by
    unfold drainEvents
    rw [if_pos ⟨hgo, rfl⟩]
  simp [loopIter, hdrain, h2]

/-- A game-over world with a pre-physics counter hook and an on-start
callback that spawns a moving sprite. -/
def c2start : GameSprite := { rect := ⟨0, 0, 10, 10⟩, speedx := 60 }

def c2World : World :=
  { gameOverFlag := true, gameOverMsg := "You Lose!",
    gameUpdateHandlers := [[Act.incCounter]], startHandlers := [[Act.spawn c2start]] }

/-- Counterexample to C2 as stated: in the very iteration that drains the
restart key-press, the pre-physics hook runs (the counter reaches 1) and the
physics step runs on the re-spawned sprite (it moves 60 px at `dt = 1`);
the claim requires both to be skipped until the following iteration. -/
theorem c2_counterexample :
    c2World.gameOverFlag = true ∧
    ((loopIter 640 480 [Event.keydown kSpace] [] 1 c2World).1).counter = 1 ∧
    (((loopIter 640 480 [Event.keydown kSpace] [] 1 c2World).1).store[0]?).map
        (fun s => s.rect.x) = some 60 := by
  refine ⟨rfl, ?_, ?_⟩ <;>
    norm_num [loopIter, drainEvents, kSpace, restartTransition, resetWorld, runStarts,
      simFrame, runHeldKeys, heldLoop, runGameUpdates, runProgs, runProg, runAct,
      physicsW, physLoop, platRectsOf, physStep, stepFollow, stepGravity, stepMove,
      stepBounce, stepPlatforms, stepLifetime, addTrunc, truncQ, overlapW, overlapLoop,
      runUpdates, renderW, drawSprite, c2World, c2start]

/-- Witness for the amended C2 at a concrete input. -/
theorem c2_restart_same_iteration_witness :
    loopIter 640 480 [Event.keydown kSpace] [] 1 c2World
      = (simFrame 640 480 [] 1 (restartTransition c2World), true) :=
  c2_restart_same_iteration 640 480 [] [] 1 c2World rfl rfl

/-! ## Claim C8: the restart transition clears state but not registrations -/

/-- Whether a callback command registers a new handler. -/
def isRegAct : Act → Bool
  | Act.regKey _ _ => true
  | Act.regClick _ _ => true
  | Act.regGameUpdate _ => true
  | Act.regUpdate _ => true
  | Act.regOverlap _ _ _ => true
  | Act.regStart _ => true
  | _ => false

/-- All registration tables of the runtime, bundled. -/
def regsOf (w : World) :=
  (w.keyHandlers, w.clickHandlers, w.overlapHandlers,
   w.gameUpdateHandlers, w.updateHandlers, w.startHandlers)

theorem runAct_regs (a : Act) (w : World) (h : isRegAct a = false) :
    regsOf (runAct a w) = regsOf w := by
  cases a with
  | incCounter => rfl
  | spawn s => rfl
  | destroyId j =>
      show regsOf (match w.store[j]? with
        | some t => { w with store := w.store.set j { t with alive := false } }
        | none => w) = regsOf w
      cases w.store[j]? <;> rfl
  | setGameOver m => rfl
  | drawCircle x y radius => rfl
  | writeText t x y size => rfl
  | regKey c p => simp [isRegAct] at h
  | regClick i p => simp [isRegAct] at h
  | regGameUpdate p => simp [isRegAct] at h
  | regUpdate p => simp [isRegAct] at h
  | regOverlap i j p => simp [isRegAct] at h
  | regStart p => simp [isRegAct] at h

theorem runProg_regs :
    ∀ (p : List Act), (∀ a ∈ p, isRegAct a = false) →
      ∀ w : World, regsOf (runProg p w) = regsOf w := by
  intro p
  induction p with
  | nil => intro _ w; rfl
  | cons a q ih =>
      intro hp w
      have h2 := ih (fun x hx => hp x (List.mem_cons_of_mem _ hx)) (runAct a w)
      rw [show runProg (a :: q) w = runProg q (runAct a w) from rfl, h2]
      exact runAct_regs a w (hp a (List.mem_cons_self a q))

theorem runProgs_regs :
    ∀ (ps : List (List Act)), (∀ p ∈ ps, ∀ a ∈ p, isRegAct a = false) →
      ∀ w : World, regsOf (runProgs ps w) = regsOf w := by
  intro ps
  induction ps with
  | nil => intro _ w; rfl
  | cons p qs ih =>
      intro hps w
      have h2 := ih (fun q hq => hps q (List.mem_cons_of_mem _ hq)) (runProg p w)
      rw [show runProgs (p :: qs) w = runProgs qs (runProg p w) from rfl, h2]
      exact runProg_regs p (hps p (List.mem_cons_self p qs)) w

/-- C8: the restart transition clears the sprite registry and the one-shot
draw/text buffers, drops the game-over flag, then re-runs every on-start
callback in registration order on the cleared state; the registration tables
(key, click, overlap, pre- and post-physics hooks, on-start) survive the
reset, and are left entirely unchanged whenever the on-start callbacks do
not themselves register new handlers. -/
theorem c8_restart_reset (w : World) :
    (resetWorld w).sprites = [] ∧ (resetWorld w).drawCmds = [] ∧
    (resetWorld w).textCmds = [] ∧ (resetWorld w).gameOverFlag = false ∧
    regsOf (resetWorld w) = regsOf w ∧
    restartTransition w
      = w.startHandlers.foldl (fun acc p => runProg p acc) (resetWorld w) ∧
    ((∀ p ∈ w.startHandlers, ∀ a ∈ p, isRegAct a = false) →
      (restartTransition w).keyHandlers = w.keyHandlers ∧
      (restartTransition w).clickHandlers = w.clickHandlers ∧
      (restartTransition w).overlapHandlers = w.overlapHandlers ∧
      (restartTransition w).gameUpdateHandlers = w.gameUpdateHandlers ∧
      (restartTransition w).updateHandlers = w.updateHandlers ∧
      (restartTransition w).startHandlers = w.startHandlers) := by
  refine ⟨rfl, rfl, rfl, rfl, rfl, rfl, ?_⟩
  intro hreg
  have h := runProgs_regs w.startHandlers hreg (resetWorld w)
  exact ⟨congrArg (fun t => t.1) h, congrArg (fun t => t.2.1) h,
         congrArg (fun t => t.2.2.1) h, congrArg (fun t => t.2.2.2.1) h,
         congrArg (fun t => t.2.2.2.2.1) h, congrArg (fun t => t.2.2.2.2.2) h⟩

/-- A populated world for the C8 witness: one of every registration, live
sprites, queued draw/text commands, game over declared. -/
def c8spawned : GameSprite := { rect := ⟨1, 2, 3, 4⟩ }

def c8World : World :=
  { store := [c8spawned], sprites := [0],
    keyHandlers := [(32, [[Act.incCounter]])],
    clickHandlers := [(0, [[Act.incCounter]])],
    updateHandlers := [[Act.incCounter]],
    gameUpdateHandlers := [[Act.incCounter]],
    overlapHandlers := [(0, 0, [Act.incCounter])],
    startHandlers := [[Act.spawn c8spawned]],
    drawCmds := [(1, 2, 3)], textCmds := [("hi", 0, 0, 24)],
    gameOverFlag := true, gameOverMsg := "You Lose!" }

theorem c8_restart_reset_witness :
    (resetWorld c8World).sprites = [] ∧ (resetWorld c8World).drawCmds = [] ∧
    (resetWorld c8World).textCmds = [] ∧ (resetWorld c8World).gameOverFlag = false ∧
    regsOf (resetWorld c8World) = regsOf c8World ∧
    restartTransition c8World
      = c8World.startHandlers.foldl (fun acc p => runProg p acc) (resetWorld c8World) ∧
    ((restartTransition c8World).keyHandlers = c8World.keyHandlers ∧
      (restartTransition c8World).clickHandlers = c8World.clickHandlers ∧
      (restartTransition c8World).overlapHandlers = c8World.overlapHandlers ∧
      (restartTransition c8World).gameUpdateHandlers = c8World.gameUpdateHandlers ∧
      (restartTransition c8World).updateHandlers = c8World.updateHandlers ∧
      (restartTransition c8World).startHandlers = c8World.startHandlers) := by
  have hreg : ∀ p ∈ c8World.startHandlers, ∀ a ∈ p, isRegAct a = false := by
    intro p hp a ha
    simp only [c8World, List.mem_singleton] at hp
    subst hp
    simp only [List.mem_singleton] at ha
    subst ha
    rfl
  have h := c8_restart_reset c8World
  exact ⟨h.1, h.2.1, h.2.2.1, h.2.2.2.1, h.2.2.2.2.1, h.2.2.2.2.2.1,
    h.2.2.2.2.2.2 hreg⟩

/-! ## Claim C9: sprite creation never fails and falls back to a rectangle -/

/-- C9: sprite creation is total in the load outcome — a failed image load
is caught, the sprite falls back to rectangle rendering (`image = none`,
drawn as `fillRect color`), and it is still appended to the store and the
live registry and returned with `alive = true` and `age = 0`. -/
theorem c9_sprite_creation (load : Option LoadResult) (x y wd ht : ℤ)
    (color : ℕ × ℕ × ℕ) (speed : ℚ × ℚ) (lifetime : Option ℚ) (w : World) :
    (spriteCreateW load x y wd ht color speed lifetime w).2 = w.store.length ∧
    (spriteCreateW load x y wd ht color speed lifetime w).1.store
      = w.store ++ [mkNewSprite load x y wd ht color speed lifetime] ∧
    (spriteCreateW load x y wd ht color speed lifetime w).1.sprites
      = w.sprites ++ [w.store.length] ∧
    ((spriteCreateW load x y wd ht color speed lifetime w).1.store[w.store.length]?
      = some (mkNewSprite load x y wd ht color speed lifetime)) ∧
    (mkNewSprite load x y wd ht color speed lifetime).alive = true ∧
    (mkNewSprite load x y wd ht color speed lifetime).age = 0 ∧
    (load = some LoadResult.failed →
      (mkNewSprite load x y wd ht color speed lifetime).image = none ∧
      drawSprite (mkNewSprite load x y wd ht color speed lifetime)
        = RenderCmd.fillRect color ⟨x, y, wd, ht⟩) := by
  refine ⟨rfl, rfl, rfl, ?_, rfl, rfl, ?_⟩
  · show (w.store ++ [mkNewSprite load x y wd ht color speed lifetime])[w.store.length]?
      = some (mkNewSprite load x y wd ht color speed lifetime)
    simp
  · rintro rfl
    exact ⟨rfl, rfl⟩

/-- Witness for C9 at a concrete failed load. -/
theorem c9_sprite_creation_witness :
    (spriteCreateW (some LoadResult.failed) 1 2 30 40 (7, 8, 9) (3, 4) none
        ({} : World)).1.store
      = [] ++ [mkNewSprite (some LoadResult.failed) 1 2 30 40 (7, 8, 9) (3, 4) none] ∧
    (mkNewSprite (some LoadResult.failed) 1 2 30 40 (7, 8, 9) (3, 4) none).alive = true ∧
    (mkNewSprite (some LoadResult.failed) 1 2 30 40 (7, 8, 9) (3, 4) none).image = none ∧
    drawSprite (mkNewSprite (some LoadResult.failed) 1 2 30 40 (7, 8, 9) (3, 4) none)
      = RenderCmd.fillRect (7, 8, 9) ⟨1, 2, 30, 40⟩ :=
  ⟨(c9_sprite_creation (some LoadResult.failed) 1 2 30 40 (7, 8, 9) (3, 4) none {}).2.1,
   (c9_sprite_creation (some LoadResult.failed) 1 2 30 40 (7, 8, 9) (3, 4) none {}).2.2.2.2.1,
   ((c9_sprite_creation (some LoadResult.failed) 1 2 30 40 (7, 8, 9) (3, 4) none {}).2.2.2.2.2.2
      rfl).1,
   ((c9_sprite_creation (some LoadResult.failed) 1 2 30 40 (7, 8, 9) (3, 4) none {}).2.2.2.2.2.2
      rfl).2⟩
